import Mathlib

/-!
Verification of the funding-dashboard core of `app.py` (V14 asset monitor).

The development shallowly embeds the data-processing functions of the script:
`safe_timestamp_to_datetime`, `process_earnings` (the ledger classifier),
the utilization and all-time-APY metric block, the daily-bucket chart frame
(`df_chart`), and the offer `is_frr` flag.  Monetary amounts, rates and
timestamps are modelled as rationals; Python exceptions are modelled with
`Except`; Python strings are modelled as Lean strings, with substring tests
(`x in s`) and `.lower()` spelled out over the underlying character lists so
that every definition evaluates inside the kernel.
-/

namespace LendingBot

/-- Python `s.lower()` on a string, as the character list of the result. -/
def lowerChars (s : String) : List Char := s.data.map Char.toLower

/-- `isPre n h` : the character list `n` begins the character list `h`. -/
def isPre (n h : List Char) : Bool :=
  match n, h with
  | [], _ => true
  | _ :: _, [] => false
  | a :: as, b :: bs => a == b && isPre as bs

/-- Python `n in h` on character lists: `n` occurs contiguously inside `h`. -/
def subIn (n : List Char) (h : List Char) : Bool :=
  match h with
  | [] => n.isEmpty
  | _ :: t => isPre n h || subIn n t

/-- A raw timestamp value as it reaches `safe_timestamp_to_datetime`:
absent/`None`/falsy, a value coercible by `float(ts)`, or a value on which
`float(ts)` raises. -/
inductive RawTs where
  | null
  | numeric (x : ℚ)
  | unparseable
deriving DecidableEq, Repr

/-- `datetime.fromtimestamp` (app.py uses it at lines 52-56): returns the
instant, modelled as epoch seconds, or raises (modelled as `Except.error`)
when the epoch value is outside the platform-representable datetime range
(year 1 through year 9999). -/
def fromtimestampE (x : ℚ) : Except Unit ℚ :=
  if -62135596800 ≤ x ∧ x ≤ 253402300799 then Except.ok x else Except.error ()

/-- `safe_timestamp_to_datetime` (app.py lines 45-58): `None` gives `now`;
a numeric value above `1e12` is treated as milliseconds and divided by
`1000`, otherwise it is treated as seconds (the `> 1e9` and final branches
of the source are identical and are kept as in the source); any exception,
from `float(ts)` or from `datetime.fromtimestamp`, is caught and gives
`now`. -/
def safe_timestamp_to_datetime (now : ℚ) (ts : RawTs) : ℚ :=
  match ts with
  | RawTs.null => now
  | RawTs.unparseable => now
  | RawTs.numeric x =>
      match (if x > 10 ^ 12 then fromtimestampE (x / 1000)
             else if x > 10 ^ 9 then fromtimestampE x
             else fromtimestampE x) with
      | Except.ok d => d
      | Except.error _ => now

/-- Interpreting an epoch value directly as seconds, with the same
caught-exception fallback to `now`: the "convert as seconds" operation that
both the `> 1e9` and the final branch of `safe_timestamp_to_datetime`
perform. -/
def convert_seconds (now : ℚ) (x : ℚ) : ℚ :=
  match fromtimestampE x with
  | Except.ok d => d
  | Except.error _ => now

/-- Python `dt.date()`: the calendar day of an instant, as a whole number of
days (epoch seconds divided by 86400, floored). -/
def pydate (dt : ℚ) : ℤ := ⌊dt / 86400⌋

/-- A canonical ledger entry as `process_earnings` (app.py lines 242-270)
reads it: `amount` is the value of `float(entry.get("amount", 0))`,
`typ` is `entry.get("type", "")`, `description` is
`entry.get("description", "")`, `info` is the JSON serialization
`json.dumps(entry.get("info", entry.get("details", ...)))`, and `ts` is the
resolved `entry.get("timestamp") or entry.get("date") or entry.get("time")`
chain. -/
structure LedgerEntry where
  amount : ℚ
  typ : String
  description : String
  info : String
  ts : RawTs
deriving DecidableEq, Repr

/-- The income keyword list of `process_earnings` (app.py line 247). -/
def keywords : List String := ["funding", "payment", "interest", "payout"]

/-- The exclusion type list of `process_earnings` (app.py line 248). -/
def exclude_types : List String := ["transaction", "transfer", "deposit", "withdrawal"]

/-- The `is_payout` test of `process_earnings` (app.py line 259):
`"payout" in typ or "funding" in typ or any(k in info for k in keywords)`.
Note the lowercased `desc` variable of line 255 is never consulted. -/
def is_payout (e : LedgerEntry) : Bool :=
  subIn "payout".data (lowerChars e.typ) || subIn "funding".data (lowerChars e.typ)
    || keywords.any (fun k => subIn k.data (lowerChars e.info))

/-- The branch of `process_earnings` a ledger entry takes.  The source only
materially distinguishes entries appended to `df_earnings`
(`interestIncome`) from skipped ones; the skipped branches are kept apart
so each rule of the cascade is addressable: `skippedNonPositive` is the
`amount <= 0: continue` of lines 251-252, `excludedType` the
exclusion-keyword `continue` of lines 257-258, and `otherInflow` the
implicit fall-through when `is_payout` is false. -/
inductive EntryClass where
  | skippedNonPositive
  | excludedType
  | interestIncome
  | otherInflow
deriving DecidableEq, Repr

/-- The per-entry rule cascade of `process_earnings` (app.py lines 250-259),
in source order: non-positive amount, then exclusion keywords matched
against the lowercased `type` field only, then the `is_payout` income
test. -/
def classify (e : LedgerEntry) : EntryClass :=
  if e.amount ≤ 0 then EntryClass.skippedNonPositive
  else if exclude_types.any (fun x => subIn x.data (lowerChars e.typ)) then EntryClass.excludedType
  else if is_payout e then EntryClass.interestIncome
  else EntryClass.otherInflow

/-- A row of `df_earnings`: the date/amount record appended by
`process_earnings` (the unused `datetime` column is omitted). -/
structure EarningRow where
  date : ℤ
  amount : ℚ
deriving DecidableEq, Repr

/-- The timestamp resolution of app.py lines 261-262:
`dt = safe_timestamp_to_datetime(ts) if ts else datetime.now()` — a missing
or falsy raw timestamp (including the number `0`) gives `now` directly. -/
def entry_dt (now : ℚ) (ts : RawTs) : ℚ :=
  match ts with
  | RawTs.null => now
  | RawTs.numeric x =>
      if x = 0 then now else safe_timestamp_to_datetime now (RawTs.numeric x)
  | RawTs.unparseable => safe_timestamp_to_datetime now RawTs.unparseable

/-- `process_earnings` (app.py lines 242-270): keeps exactly the entries
whose cascade lands on `interestIncome`, recording the entry date and
amount. -/
def process_earnings (now : ℚ) (ledgers : List LedgerEntry) : List EarningRow :=
  ledgers.filterMap fun e =>
    if classify e = EntryClass.interestIncome then
      some { date := pydate (entry_dt now e.ts), amount := e.amount }
    else none

/-- The utilization metric (app.py lines 389-391):
`((total - free) / total * 100) if total > 0 else 0.0`. -/
def utilization (total free : ℚ) : ℚ :=
  if 0 < total then (total - free) / total * 100 else 0

/-- The amount-column sum of `df_earnings` over the income rows. -/
def total_income (rows : List EarningRow) : ℚ := (rows.map EarningRow.amount).sum

/-- The date-column minimum of `df_earnings` — the earliest income date;
only consulted on a nonempty frame. -/
def first_date : List EarningRow → ℤ
  | [] => 0
  | r :: rs => (rs.map EarningRow.date).foldl min r.date

/-- The all-time APY block (app.py lines 393-406): `0.0` when
`df_earnings` is empty; otherwise `days_diff = (as_of - first_date).days + 1`
and the rate formula is applied only under the guard
`days_diff > 0 and total_assets > 0`, `0.0` otherwise. -/
def apy_all_time (as_of : ℤ) (total_assets : ℚ) (rows : List EarningRow) : ℚ :=
  match rows with
  | [] => 0
  | r :: rs =>
      let days_diff : ℤ := (as_of - first_date (r :: rs)) + 1
      if 0 < days_diff ∧ 0 < total_assets then
        total_income (r :: rs) / (days_diff : ℚ) / total_assets * 365 * 100
      else 0

/-- The all-time APY as §4.4 of the specification words it: `active_days`
is the day difference plus one **floored at 1**, and the result is `0`
exactly when there is no income history or the principal is `0`.  Stated
from the specification, for comparison with `apy_all_time` above. -/
def spec_lifetime_apy (as_of : ℤ) (total_assets : ℚ) (rows : List EarningRow) : ℚ :=
  match rows with
  | [] => 0
  | r :: rs =>
      if total_assets = 0 then 0
      else
        let active_days : ℤ := max 1 ((as_of - first_date (r :: rs)) + 1)
        total_income (r :: rs) / (active_days : ℚ) / total_assets * 365 * 100

/-- A ledger entry after classification, as the chart pipeline sees it:
its calendar day, its amount, and the cascade branch it took. -/
structure ClassifiedEntry where
  date : ℤ
  amount : ℚ
  cls : EntryClass
deriving DecidableEq, Repr

/-- The `df_earnings` frame that feeds the chart: exactly the
income-classified entries, as date/amount rows (mirrors `process_earnings`
appending only `is_payout` entries). -/
def incomeRows (es : List ClassifiedEntry) : List EarningRow :=
  (es.filter fun x => decide (x.cls = EntryClass.interestIncome)).map
    fun x => { date := x.date, amount := x.amount }

/-- One row of the chart frame. -/
structure DailyBucket where
  date : ℤ
  income_sum : ℚ
deriving DecidableEq, Repr

/-- The `df_chart` construction (app.py lines 430-434): `full_dates` is the
inclusive day range `[s, e]`; the earnings rows are masked to
`s ≤ date ≤ e`, summed per day, and left-merged onto `full_dates` with
missing days filled with `0`. -/
def df_chart (rows : List EarningRow) (s e : ℤ) : List DailyBucket :=
  (List.range (e - s + 1).toNat).map fun (i : ℕ) =>
    { date := s + (i : ℤ),
      income_sum :=
        ((rows.filter fun r =>
            decide (s ≤ r.date) && decide (r.date ≤ e) && decide (r.date = s + (i : ℤ))).map
          EarningRow.amount).sum }

/-- The chart pipeline applied to classified entries: restrict to
income-classified rows (the content of `df_earnings`), then build the
per-day frame. -/
def bucket (es : List ClassifiedEntry) (s e : ℤ) : List DailyBucket :=
  df_chart (incomeRows es) s e

/-- The dict-shaped offer `is_frr` flag (app.py line 516):
`(flags & 1024) > 0 or rate == 0`. -/
def is_frr_dict (flags : ℕ) (rate : ℚ) : Bool :=
  decide (0 < Nat.land flags 1024) || decide (rate = 0)

/-- The sequence-shaped offer `is_frr` flag (app.py line 519):
`rate == 0`. -/
def is_frr_seq (rate : ℚ) : Bool := decide (rate = 0)

/-- A small (2 currency units) ledger entry with no type, description or
metadata text at all. -/
def c1small : LedgerEntry :=
  { amount := 2, typ := "", description := "", info := "\x7b\x7d", ts := RawTs.null }

/-- The 745.54 undescribed inflow of the §8 scenario. -/
def c1big : LedgerEntry :=
  { amount := 74554 / 100, typ := "", description := "", info := "\x7b\x7d", ts := RawTs.null }

/-- The §8 scenario entry whose only keyword evidence sits in the
description field. -/
def c2entry : LedgerEntry :=
  { amount := 42 / 100, typ := "", description := "Margin Funding Payment",
    info := "\x7b\x7d", ts := RawTs.null }

/-- An entry whose metadata blob carries both the exclusion keyword
`transfer` and the income keyword `payment`, with an empty type field. -/
def c3meta : LedgerEntry :=
  { amount := 1, typ := "", description := "",
    info := "\x7b\"description\": \"Transfer Payment\"\x7d", ts := RawTs.null }

/-- An entry whose type field carries the exclusion keyword `transfer`
while its metadata carries income keywords. -/
def c3typed : LedgerEntry :=
  { amount := 1, typ := "transfer", description := "",
    info := "\x7b\"d\": \"funding payment\"\x7d", ts := RawTs.null }

/-- A negative-amount entry saturated with income keywords in every text
field. -/
def c7entry : LedgerEntry :=
  { amount := -5, typ := "funding payout", description := "interest payment",
    info := "\x7b\"k\": \"funding payout interest\"\x7d", ts := RawTs.null }

/-- An income-keyword entry whose raw timestamp cannot be coerced to a
number. -/
def c9entry : LedgerEntry :=
  { amount := 1, typ := "payout", description := "", info := "\x7b\x7d",
    ts := RawTs.unparseable }

/-- C1: the classifier has no magnitude fallback: a positive entry whose
type matches no exclusion keyword and whose text matches no income keyword
falls through to the non-income branch whatever its amount, so amounts at
or below the relative threshold are not classified as interest income; the
745.54 undescribed entry of the scenario does land on the non-income
(principal) branch. -/
theorem C1_no_magnitude_fallback (e : LedgerEntry)
    (hpos : 0 < e.amount)
    (hexc : exclude_types.any (fun x => subIn x.data (lowerChars e.typ)) = false)
    (hinc : is_payout e = false) :
    classify e = EntryClass.otherInflow ∧ classify c1big = EntryClass.otherInflow := by
  constructor
  · rw [classify, if_neg (not_le.mpr hpos)]
    simp [hexc, hinc]
  · have h : ¬ ((74554 : ℚ) / 100 ≤ 0) := by norm_num
    simp only [c1big, classify, if_neg h]
    decide

/-- C1 (witness): the small keyword-free entry and the scenario entry both
land on the non-income branch. -/
theorem C1_no_magnitude_fallback_w :
    classify c1small = EntryClass.otherInflow ∧ classify c1big = EntryClass.otherInflow :=
  C1_no_magnitude_fallback c1small (by norm_num [c1small]) (by decide) (by decide)

/-- C1 (counterexample): a 2-unit entry with no keyword evidence sits
below the relative threshold 1000 × 0.005 = 5 claimed by the spec, yet the
code does not classify it as interest income. -/
theorem C1_small_entry_not_income :
    0 < c1small.amount ∧ c1small.amount ≤ 1000 * (5 / 1000)
  ∧ exclude_types.any (fun x => subIn x.data (lowerChars c1small.typ)) = false
  ∧ is_payout c1small = false
  ∧ classify c1small ≠ EntryClass.interestIncome := by
  refine ⟨by norm_num [c1small], by norm_num [c1small], by decide, by decide, ?_⟩
  decide

/-- C2: the scenario entry whose description reads "Margin Funding
Payment" carries the income keywords `funding` and `payment` in its
description, has positive amount, matches no exclusion type, and is
nevertheless not classified as interest income and produces no earnings
row — the code lowercases the description into the variable `desc` at
app.py line 255 and then never consults it. -/
theorem C2_description_keyword_ignored :
    subIn "funding".data (lowerChars c2entry.description) = true
  ∧ subIn "payment".data (lowerChars c2entry.description) = true
  ∧ 0 < c2entry.amount
  ∧ exclude_types.any (fun x => subIn x.data (lowerChars c2entry.typ)) = false
  ∧ classify c2entry ≠ EntryClass.interestIncome
  ∧ process_earnings 0 [c2entry] = [] := by
  have h : ¬ ((42 : ℚ) / 100 ≤ 0) := by norm_num
  have hcl : classify c2entry = EntryClass.otherInflow := by
    simp only [c2entry, classify, if_neg h]
    decide
  refine ⟨by decide, by decide, by norm_num [c2entry], by decide, ?_, ?_⟩
  · rw [hcl]; decide
  · rw [process_earnings, List.filterMap]
    simp [hcl]

/-- C3 (counterexample): an entry whose metadata blob contains the
exclusion keyword `transfer` is classified interest income, not principal
— the code checks exclusion keywords against the type field only, and the
income rule then matches `payment` inside the metadata. -/
theorem C3_metadata_exclusion_not_checked :
    subIn "transfer".data (lowerChars c3meta.info) = true
  ∧ classify c3meta = EntryClass.interestIncome := by
  exact ⟨by decide, by decide⟩

/-- C3 (amended): the exclusion list is `transaction`, `transfer`,
`deposit`, `withdrawal`, matched as substrings of the lowercased type
field only; when the type matches, a positive entry is skipped as a
capital movement before the income-keyword rule is consulted, so it is
never classified interest income even when income keywords are present
elsewhere. -/
theorem C3_type_exclusion_precedence (e : LedgerEntry)
    (hpos : 0 < e.amount)
    (hexc : exclude_types.any (fun x => subIn x.data (lowerChars e.typ)) = true) :
    classify e = EntryClass.excludedType ∧ classify e ≠ EntryClass.interestIncome := by
  have hcl : classify e = EntryClass.excludedType := by
    rw [classify, if_neg (not_le.mpr hpos)]
    simp [hexc]
  exact ⟨hcl, by rw [hcl]; decide⟩

/-- C3 (witness): a transfer-typed entry with income keywords in its
metadata is excluded, not income. -/
theorem C3_type_exclusion_precedence_w :
    classify c3typed = EntryClass.excludedType ∧ classify c3typed ≠ EntryClass.interestIncome :=
  C3_type_exclusion_precedence c3typed (by norm_num [c3typed]) (by decide)

/-- C4 (counterexample): with a single 10-unit income entry dated one day
after `as_of` and principal 500, the code yields 0 — the `days_diff > 0`
guard fails — while the floored-at-1 `active_days` formula of the claim
yields 730. -/
theorem C4_future_income_gives_zero :
    apy_all_time 0 500 [{ date := 1, amount := 10 }] = 0
  ∧ spec_lifetime_apy 0 500 [{ date := 1, amount := 10 }] = 730
  ∧ (0 : ℚ) ≠ 730 := by
  refine ⟨by decide, ?_, by norm_num⟩
  simp only [spec_lifetime_apy, total_income, first_date]
  norm_num

/-- C4 (amended): the all-time APY is 0 when there are no income rows,
when the principal is not positive, or when `(as_of − earliest).days + 1`
is not positive (there is no flooring at 1); otherwise it equals
`lifetime_income / active_days / total_principal × 365 × 100` with
`active_days = (as_of − earliest).days + 1` — and no branch divides by
zero. -/
theorem C4_apy_all_time_guarded (as_of : ℤ) (total_assets : ℚ) (rows : List EarningRow) :
    (rows = [] → apy_all_time as_of total_assets rows = 0)
  ∧ (total_assets ≤ 0 → apy_all_time as_of total_assets rows = 0)
  ∧ (as_of - first_date rows + 1 ≤ 0 → rows ≠ [] → apy_all_time as_of total_assets rows = 0)
  ∧ (rows ≠ [] → 0 < total_assets → 0 < as_of - first_date rows + 1 →
      apy_all_time as_of total_assets rows =
        total_income rows / ((as_of - first_date rows + 1 : ℤ) : ℚ) / total_assets * 365 * 100) := by
  cases rows with
  | nil =>
      exact ⟨fun _ => rfl, fun _ => rfl, fun _ h => absurd rfl h, fun h => absurd rfl h⟩
  | cons r rs =>
      refine ⟨fun h => by simp at h, fun ht => ?_, fun hd _ => ?_, fun _ hT hd => ?_⟩
      · simp only [apy_all_time]
        rw [if_neg]
        rintro ⟨-, h2⟩
        exact absurd h2 (not_lt.mpr ht)
      · simp only [apy_all_time]
        rw [if_neg]
        rintro ⟨h1, -⟩
        exact absurd h1 (not_lt.mpr hd)
      · simp only [apy_all_time]
        rw [if_pos ⟨hd, hT⟩]

/-- C4 (witness): an empty history, a zero principal, and a normal
one-entry history evaluate as the guarded formula prescribes. -/
theorem C4_apy_all_time_guarded_w :
    apy_all_time 5 500 [] = 0
  ∧ apy_all_time 5 0 [{ date := 1, amount := 10 }] = 0
  ∧ apy_all_time 5 500 [{ date := 1, amount := 10 }] =
      total_income [{ date := 1, amount := 10 }]
        / (((5 : ℤ) - first_date [{ date := 1, amount := 10 }] + 1 : ℤ) : ℚ) / 500 * 365 * 100 :=
  ⟨(C4_apy_all_time_guarded 5 500 []).1 rfl,
   (C4_apy_all_time_guarded 5 0 [{ date := 1, amount := 10 }]).2.1 le_rfl,
   (C4_apy_all_time_guarded 5 500 [{ date := 1, amount := 10 }]).2.2.2
     (by simp) (by norm_num) (by decide)⟩

/-- C5: the utilization metric is `(total − free) / total × 100` whenever
`total` is positive, is exactly 0 when `total` is 0, and the 1000/300
wallet of the scenario reads 70. -/
theorem C5_utilization_formula (total free : ℚ) :
    (0 < total → utilization total free = (total - free) / total * 100)
  ∧ (total = 0 → utilization total free = 0)
  ∧ utilization 1000 300 = 70 := by
  refine ⟨fun h => if_pos h, fun h => ?_, by norm_num [utilization]⟩
  simp [utilization, h]

/-- C5 (witness): the scenario wallet and an empty wallet. -/
theorem C5_utilization_formula_w :
    utilization 1000 300 = (1000 - 300) / 1000 * 100 ∧ utilization 0 5 = 0 :=
  ⟨(C5_utilization_formula 1000 300).1 (by norm_num),
   (C5_utilization_formula 0 5).2.1 rfl⟩

/-- C7: a negative-amount entry always takes the non-positive skip branch,
whatever keywords its text fields carry; it is never classified interest
income and contributes nothing to the earnings rows (hence to any income
sum). -/
theorem C7_negative_is_never_income (e : LedgerEntry) (h : e.amount < 0) :
    classify e = EntryClass.skippedNonPositive
  ∧ classify e ≠ EntryClass.interestIncome
  ∧ ∀ (now : ℚ) (rest : List LedgerEntry),
      process_earnings now (e :: rest) = process_earnings now rest := by
  have hcl : classify e = EntryClass.skippedNonPositive := by
    rw [classify, if_pos (le_of_lt h)]
  refine ⟨hcl, by rw [hcl]; decide, fun now rest => ?_⟩
  simp [process_earnings, List.filterMap_cons, hcl]

/-- C7 (witness): a −5 entry carrying income keywords in every text field
is skipped and leaves the earnings rows unchanged. -/
theorem C7_negative_is_never_income_w :
    classify c7entry = EntryClass.skippedNonPositive
  ∧ process_earnings 0 [c7entry] = process_earnings 0 [] :=
  ⟨(C7_negative_is_never_income c7entry (by norm_num [c7entry])).1,
   (C7_negative_is_never_income c7entry (by norm_num [c7entry])).2.2 0 []⟩

/-- C6: over an inclusive range `[s, e]` the chart frame has exactly one
bucket per calendar day; it is precisely the map sending the i-th day to
the sum of the amounts of the income-classified entries dated that day
(non-income classifications contribute nothing, days with no income sum
to 0); and the empty-entry frame over 2024-01-01 … 2024-01-03 (days
19723 … 19725 of the epoch) is three buckets of 0. -/
theorem C6_one_bucket_per_day (es : List ClassifiedEntry) (s e : ℤ) (hse : s ≤ e) :
    (bucket es s e).length = (e - s + 1).toNat
  ∧ bucket es s e =
      ((List.range (e - s + 1).toNat).map fun (i : ℕ) =>
        { date := s + (i : ℤ),
          income_sum :=
            ((es.filter fun x =>
                decide (x.date = s + (i : ℤ)) && decide (x.cls = EntryClass.interestIncome)).map
              ClassifiedEntry.amount).sum })
  ∧ bucket [] 19723 19725 =
      [{ date := 19723, income_sum := 0 }, { date := 19724, income_sum := 0 },
       { date := 19725, income_sum := 0 }] := by
  have _hse := hse
  refine ⟨?_, ?_, by decide⟩
  · unfold bucket df_chart
    rw [List.length_map, List.length_range]
  · unfold bucket df_chart
    apply List.map_congr_left
    intro i hi
    have hi2 : (i : ℤ) < e - s + 1 := Int.lt_toNat.mp (List.mem_range.mp hi)
    have hle1 : s ≤ s + (i : ℤ) := by omega
    have hle2 : s + (i : ℤ) ≤ e := by omega
    simp only [DailyBucket.mk.injEq, true_and]
    have hp : ((incomeRows es).filter fun r =>
          decide (s ≤ r.date) && decide (r.date ≤ e) && decide (r.date = s + (i : ℤ)))
        = (incomeRows es).filter fun r => decide (r.date = s + (i : ℤ)) := by
      apply List.filter_congr
      intro r _
      by_cases h : r.date = s + (i : ℤ)
      · simp [h, hle1, hle2]
      · simp [h]
    rw [hp]
    simp only [incomeRows, List.filter_map, List.filter_filter, List.map_map]
    rfl

/-- C6 (witness): the empty-entry chart over three days. -/
theorem C6_one_bucket_per_day_w :
    bucket [] 19723 19725 =
      [{ date := 19723, income_sum := 0 }, { date := 19724, income_sum := 0 },
       { date := 19725, income_sum := 0 }] :=
  (C6_one_bucket_per_day [] 19723 19725 (by norm_num)).2.2

/-- C8 (counterexample): a dict-shaped offer with the FRR flag bit 1024
set and the nonzero rate 0.00001 is marked floating, so `is_floating`
does not hold only when the rate is 0. -/
theorem C8_flag_bit_forces_floating :
    is_frr_dict 1024 (1 / 100000) = true ∧ (1 / 100000 : ℚ) ≠ 0 :=
  ⟨by decide, by norm_num⟩

/-- C8 (amended): a sequence-shaped offer is floating exactly when its
rate is 0; a dict-shaped offer is floating exactly when flag bit 1024 is
set or its rate is 0, so a zero rate still forces the floating mark but
the converse fails when the flag bit is set. -/
theorem C8_floating_characterization (flags : ℕ) (rate : ℚ) :
    (is_frr_seq rate = true ↔ rate = 0)
  ∧ (rate = 0 → is_frr_dict flags rate = true)
  ∧ (is_frr_dict flags rate = true ↔ (0 < Nat.land flags 1024 ∨ rate = 0)) :=
  ⟨by simp [is_frr_seq], fun h => by simp [is_frr_dict, h], by simp [is_frr_dict]⟩

/-- C8 (witness): zero-rate offers of both shapes are floating. -/
theorem C8_floating_characterization_w :
    is_frr_seq 0 = true ∧ is_frr_dict 7 0 = true :=
  ⟨(C8_floating_characterization 7 0).1.mpr rfl, (C8_floating_characterization 7 0).2.1 rfl⟩

/-- C9: timestamp conversion is a total function — a missing/`None` raw
timestamp and one on which `float` raises both yield `now` rather than an
error, and a record carrying an unparseable timestamp is still processed:
it produces an earnings row dated at the current day. -/
theorem C9_unparseable_timestamp_is_now (now : ℚ) :
    safe_timestamp_to_datetime now RawTs.null = now
  ∧ safe_timestamp_to_datetime now RawTs.unparseable = now
  ∧ process_earnings now [c9entry] = [{ date := pydate now, amount := 1 }] := by
  refine ⟨rfl, rfl, ?_⟩
  have hcl : classify c9entry = EntryClass.interestIncome := by decide
  simp only [process_earnings, List.filterMap_cons, if_pos hcl, List.filterMap_nil]
  rfl

/-- C10: the unit-guessing heuristic — a numeric timestamp above `1e12` is
interpreted as milliseconds and converted as seconds after division by
1000, and a positive numeric timestamp at or below `1e12` is converted as
seconds unchanged. -/
theorem C10_millisecond_heuristic (now x : ℚ) :
    (10 ^ 12 < x →
      safe_timestamp_to_datetime now (RawTs.numeric x) = convert_seconds now (x / 1000))
  ∧ (0 < x → x ≤ 10 ^ 12 →
      safe_timestamp_to_datetime now (RawTs.numeric x) = convert_seconds now x) := by
  constructor
  · intro h
    rw [safe_timestamp_to_datetime, if_pos h]
    rfl
  · intro h1 h2
    rw [safe_timestamp_to_datetime, if_neg (not_lt.mpr h2), ite_self]
    rfl

/-- C10 (witness): a millisecond-scale stamp is divided by 1000, a
second-scale stamp is kept. -/
theorem C10_millisecond_heuristic_w :
    safe_timestamp_to_datetime 0 (RawTs.numeric (2 * 10 ^ 12)) = convert_seconds 0 (2 * 10 ^ 12 / 1000)
  ∧ safe_timestamp_to_datetime 0 (RawTs.numeric 5) = convert_seconds 0 5 :=
  ⟨(C10_millisecond_heuristic 0 (2 * 10 ^ 12)).1 (by norm_num),
   (C10_millisecond_heuristic 0 5).2 (by norm_num) (by norm_num)⟩

end LendingBot
